import Mathlib

/-
Verification of the link-time plug-in registration facility
(linktimeplugin.hpp) via a shallow embedding.

Embedding overview:

* A `Registrar` models one static registrar object created by the
  `REGISTER_PLUGIN` macro. `addr` is the address of its embedded
  `plugin_` member (the plug-in instance), and `ty` is the concrete
  plug-in type the registrar wraps.
* The per-base-type static registry
  `std::unique_ptr<std::vector<RegistrarBase<BASE>*>> registrars_`
  is modelled as `Option (List Registrar)`: `none` is the null
  `unique_ptr` (registry never created), `some l` the vector `l`.
* `RegistrarBase`'s constructor body may fail at two allocation
  points (`new std::vector` and `push_back`); the two Booleans
  `newOk`/`pushOk` are the outcome oracle for those allocations.
  The `(state, threw)` result of the body feeds the translation of
  the constructor function-try-block: by [except.handle] control
  flowing off the end of a handler of a constructor function-try-block
  rethrows the currently handled exception, and the constructor is
  declared `noexcept`, so the rethrown exception calls
  `std::terminate` — the handler cannot actually swallow the fault.
* `plugins()` grows its local result vector with `ret.push_back`,
  each of which may fail to allocate; `pluginsLoopE` takes an oracle
  for those allocations, and a failure propagates `std::bad_alloc`
  to the caller (`Except.error`).
* Multiple plug-in families (one registry per BASE template
  argument) are modelled by `GState : Nat → Option (List Registrar)`,
  indexing registries by a base-type identifier.
-/

namespace linktimeplugin

/-- One registrar object, created by `REGISTER_PLUGIN`. `addr` is the
address of its `plugin_` member (the owned plug-in instance); `ty`
names the concrete plug-in type `PLUGIN`. -/
structure Registrar where
  addr : Nat
  ty : String
  deriving DecidableEq, Repr

/-- `Registrar<PLUGIN>::operator()` returns a reference to the member
`plugin_`; taking its address (as `plugins()` does with `&(*r)()`)
yields the member's address. -/
def Registrar.call (r : Registrar) : Nat :=
  r.addr

/-- The entries of a registry state: the vector contents, or the empty
sequence for the never-created (null) registry. -/
def regEntries (st : Option (List Registrar)) : List Registrar :=
  st.getD []

/-- The body of `RegistrarBase::RegistrarBase` before the exception
handler: `if (!registrars_) registrars_.reset(new std::vector(...));
registrars_->push_back(this);`. Returns the registry state at the
point the body finishes or throws, together with whether it threw.
`newOk` is whether `new std::vector` succeeds, `pushOk` whether the
`push_back` allocation succeeds (`push_back` has the strong guarantee:
on failure the vector is unchanged). -/
def ctorBodyRun (st : Option (List Registrar)) (r : Registrar)
    (newOk pushOk : Bool) : Option (List Registrar) × Bool :=
  match st with
  | none =>
      if newOk then
        if pushOk then (some [r], false) else (some [], true)
      else (none, true)
  | some l =>
      if pushOk then (some (l ++ [r]), false) else (some l, true)

/-- The registry state `RegistrarBase::RegistrarBase` leaves behind:
the state at the point the body finished or threw. On the success
path this is the state the process continues with. -/
def RegistrarBase.construct (st : Option (List Registrar)) (r : Registrar)
    (newOk pushOk : Bool) : Option (List Registrar) :=
  (ctorBodyRun st r newOk pushOk).1

/-- Outcome of one `RegistrarBase::RegistrarBase` run. `completed`
is normal completion. `terminated` is `std::terminate`: when the body
throws, control enters the `catch(...)` handler of the constructor
function-try-block, the handler body is empty, and flowing off the
end of such a handler rethrows the currently handled exception
([except.handle]); the constructor is `noexcept`, so the rethrown
exception aborts the process. The recorded state is the registry
state left behind at that point. -/
inductive CtorOutcome where
  | completed (st : Option (List Registrar))
  | terminated (st : Option (List Registrar))
  deriving DecidableEq, Repr

/-- `RegistrarBase::RegistrarBase` with the language's handler
semantics: only a non-throwing body completes construction; a
throwing body reaches the empty handler, which rethrows at its end,
and `noexcept` turns the escaping exception into `std::terminate`. -/
def RegistrarBase.constructRun (st : Option (List Registrar)) (r : Registrar)
    (newOk pushOk : Bool) : CtorOutcome :=
  match ctorBodyRun st r newOk pushOk with
  | (st1, false) => CtorOutcome.completed st1
  | (st1, true) => CtorOutcome.terminated st1

/-- The loop body of `RegistrarBase::plugins`: traverses the vector
front to back, appending `&(*r)()` to `ret`. -/
def pluginsLoop (ret : List Nat) : List Registrar → List Nat
  | [] => ret
  | r :: rest => pluginsLoop (ret ++ [Registrar.call r]) rest

/-- `RegistrarBase<BASE>::plugins()`: if the registry was never
created, returns the empty vector; otherwise collects one pointer per
registrar. -/
def RegistrarBase.plugins (st : Option (List Registrar)) : List Nat :=
  match st with
  | none => []
  | some rs => pluginsLoop [] rs

/-- The free function `linktimeplugin::plugins<T>()`, which delegates
to `RegistrarBase<T>::plugins()`. -/
def plugins (st : Option (List Registrar)) : List Nat :=
  RegistrarBase.plugins st

/-- The query as a state transformer: `plugins()` only reads the
static `registrars_` (its single write target is the local `ret`),
so the registry state it leaves behind is the one it was given. -/
def pluginsCall (st : Option (List Registrar)) :
    List Nat × Option (List Registrar) :=
  (RegistrarBase.plugins st, st)

/-- The loop of `RegistrarBase::plugins` with the allocations of the
local result vector made explicit: each `ret.push_back(&(*r)())` may
fail to allocate (growing a `std::vector` can throw
`std::bad_alloc`), and the function has no handler, so the exception
propagates to the caller (`Except.error`). The oracle `alloc` says
whether the push at the given result length succeeds. -/
def pluginsLoopE (alloc : Nat → Bool) (ret : List Nat) :
    List Registrar → Except Unit (List Nat)
  | [] => Except.ok ret
  | r :: rest =>
      if alloc ret.length then
        pluginsLoopE alloc (ret ++ [Registrar.call r]) rest
      else Except.error ()

/-- `RegistrarBase<BASE>::plugins()` with result-vector allocation
outcomes explicit: a never-created registry returns the empty
default-constructed vector (no allocation, no throw); otherwise the
loop runs and an allocation failure escapes to the caller. -/
def RegistrarBase.pluginsE (alloc : Nat → Bool)
    (st : Option (List Registrar)) : Except Unit (List Nat) :=
  match st with
  | none => Except.ok []
  | some rs => pluginsLoopE alloc [] rs

/-- Run a sequence of registrar constructions (in static-initialization
order) against one registry, with every allocation succeeding. -/
def runRegsOk (st : Option (List Registrar)) (rs : List Registrar) :
    Option (List Registrar) :=
  rs.foldl (fun s r => RegistrarBase.construct s r true true) st

/-- One registration event during static initialization: which
plug-in family root type (`base`, a type identifier) it targets,
the registrar object, and the allocation outcomes. -/
structure RegEvent where
  base : Nat
  reg : Registrar
  newOk : Bool
  pushOk : Bool

/-- The global static state: one registry per plug-in base type
(`RegistrarBase<BASE>::registrars_` is a distinct object for each
`BASE` template argument). -/
def GState : Type := Nat → Option (List Registrar)

/-- Before static initialization every `registrars_` is a null
`unique_ptr`. -/
def initState : GState := fun _ => none

/-- One registrar construction acts only on its own family's
registry; every other `registrars_` instantiation is untouched. -/
def stepEvent (g : GState) (e : RegEvent) : GState :=
  fun b => if b = e.base then
    RegistrarBase.construct (g e.base) e.reg e.newOk e.pushOk
  else g b

/-- Run the whole static-initialization sequence. -/
def runEvents (g : GState) (evs : List RegEvent) : GState :=
  evs.foldl stepEvent g

/-- The identifier generated by `REGISTER_PLUGIN(x)`:
token pasting `x##registrar`. -/
def registerPluginIdent (x : String) : String :=
  x ++ "registrar"

/-- One use of the `REGISTER_PLUGIN` macro: the scope it appears in
and the concrete plug-in type passed as the argument. Each use
declares exactly one static `Registrar<x>` object. -/
structure MacroUse where
  scope : Nat
  ty : String

/-- The declared entity a macro use introduces: its scope together
with the pasted identifier. Two declarations with the same scope and
identifier are a compile-time redefinition error. -/
def macroIdent (u : MacroUse) : Nat × String :=
  (u.scope, registerPluginIdent u.ty)

/- ------------------------------------------------------------------ -/
/- Helper lemmas                                                      -/
/- ------------------------------------------------------------------ -/

theorem construct_ok (st : Option (List Registrar)) (r : Registrar) :
    RegistrarBase.construct st r true true = some (regEntries st ++ [r]) := by
  cases st <;> rfl

theorem regEntries_runRegsOk (rs : List Registrar) :
    ∀ st, regEntries (runRegsOk st rs) = regEntries st ++ rs := by
  induction rs with
  | nil => intro st; simp [runRegsOk, regEntries]
  | cons r rest ih =>
      intro st
      have h1 : runRegsOk st (r :: rest)
          = runRegsOk (RegistrarBase.construct st r true true) rest := rfl
      rw [h1, ih, construct_ok]
      simp [regEntries]

theorem pluginsLoop_eq (rs : List Registrar) :
    ∀ ret, pluginsLoop ret rs = ret ++ rs.map Registrar.call := by
  induction rs with
  | nil => intro ret; simp [pluginsLoop]
  | cons r rest ih =>
      intro ret
      rw [pluginsLoop, ih]
      simp

theorem plugins_eq_map (st : Option (List Registrar)) :
    RegistrarBase.plugins st = (regEntries st).map Registrar.call := by
  cases st with
  | none => rfl
  | some rs =>
      have h := pluginsLoop_eq rs []
      simpa [RegistrarBase.plugins, regEntries] using h

theorem pluginsLoopE_all_ok (alloc : Nat → Bool) (h : ∀ k, alloc k = true)
    (rs : List Registrar) :
    ∀ ret, pluginsLoopE alloc ret rs = Except.ok (pluginsLoop ret rs) := by
  induction rs with
  | nil => intro ret; rfl
  | cons r rest ih =>
      intro ret
      simp only [pluginsLoopE, pluginsLoop, h ret.length, if_true]
      exact ih _

theorem pluginsLoopE_ok_or_error (alloc : Nat → Bool) (rs : List Registrar) :
    ∀ ret, pluginsLoopE alloc ret rs = Except.ok (pluginsLoop ret rs)
      ∨ pluginsLoopE alloc ret rs = Except.error () := by
  induction rs with
  | nil => intro ret; left; rfl
  | cons r rest ih =>
      intro ret
      cases hb : alloc ret.length with
      | true =>
          simp only [pluginsLoopE, pluginsLoop, hb, if_true]
          exact ih _
      | false =>
          right
          simp [pluginsLoopE, hb]

theorem runEvents_other (evs : List RegEvent) :
    ∀ (g : GState) (b : Nat), (∀ e ∈ evs, e.base ≠ b) →
      runEvents g evs b = g b := by
  induction evs with
  | nil => intro g b _; rfl
  | cons e rest ih =>
      intro g b h
      have h1 : runEvents g (e :: rest) = runEvents (stepEvent g e) rest := rfl
      rw [h1, ih (stepEvent g e) b (fun x hx => h x (List.mem_cons_of_mem e hx))]
      have hne : b ≠ e.base := fun hb => h e (List.mem_cons_self e rest) hb.symm
      simp [stepEvent, hne]

/- ------------------------------------------------------------------ -/
/- Claims                                                             -/
/- ------------------------------------------------------------------ -/

/-- C1: the claim is right about the intent (the code's own comment
says the exception must not escape) but the code does not deliver it:
in a constructor function-try-block, control flowing off the end of
the empty `catch(...)` handler rethrows the currently handled
exception, and the `noexcept` specifier then calls `std::terminate`.
So an allocation failure during registration is not swallowed: the
process aborts. Evaluated here: every run whose first allocation
fails terminates; the concrete failing input (first registration,
`new std::vector` succeeds, `push_back` allocation fails) terminates;
only a run with no allocation failure completes, appending the
registrar. -/
theorem c1_alloc_failure_terminates :
    (∀ (st : Option (List Registrar)) (r : Registrar),
      RegistrarBase.constructRun st r false false
        = CtorOutcome.terminated st)
    ∧ RegistrarBase.constructRun none ⟨1, "A"⟩ true false
        = CtorOutcome.terminated (some [])
    ∧ ∀ (st : Option (List Registrar)) (r : Registrar),
        RegistrarBase.constructRun st r true true
          = CtorOutcome.completed (some (regEntries st ++ [r])) := by
  refine ⟨fun st r => ?_, rfl, fun st r => ?_⟩
  · cases st <;> rfl
  · cases st <;> rfl

/-- C2 (counterexample): the query does expose an error path: with
one registered entry and the `ret.push_back` allocation failing,
`plugins()` propagates `std::bad_alloc` to its caller instead of
returning a sequence — so returning N references is not its only
observable outcome. -/
theorem c2_counterexample :
    RegistrarBase.pluginsE (fun _ => false)
        (some [(⟨1, "A"⟩ : Registrar)]) = Except.error ()
    ∧ ∀ l : List Nat, RegistrarBase.pluginsE (fun _ => false)
        (some [(⟨1, "A"⟩ : Registrar)]) ≠ Except.ok l :=
  ⟨rfl, fun _ h => Except.noConfusion h⟩

/-- C2 (amended): the only observable outcomes of `plugins<T>()` are
a normal return of N ≥ 0 references (one per registered entry) or an
allocation-failure exception (`std::bad_alloc`) thrown while growing
the result vector; in particular, whenever every result-vector
allocation succeeds, it returns the N references normally. -/
theorem c2_query_outcomes (alloc : Nat → Bool)
    (st : Option (List Registrar)) :
    (RegistrarBase.pluginsE alloc st
        = Except.ok (RegistrarBase.plugins st)
      ∨ RegistrarBase.pluginsE alloc st = Except.error ())
    ∧ ((∀ k, alloc k = true) →
        RegistrarBase.pluginsE alloc st
          = Except.ok (RegistrarBase.plugins st)
        ∧ (RegistrarBase.plugins st).length = (regEntries st).length) := by
  constructor
  · cases st with
    | none => left; rfl
    | some rs => exact pluginsLoopE_ok_or_error alloc rs []
  · intro h
    constructor
    · cases st with
      | none => rfl
      | some rs => exact pluginsLoopE_all_ok alloc h rs []
    · simp [plugins_eq_map]

theorem c2_witness :
    (∀ k : Nat, (fun _ : Nat => true) k = true)
    ∧ RegistrarBase.pluginsE (fun _ => true)
        (some [(⟨1, "A"⟩ : Registrar), ⟨2, "B"⟩]) = Except.ok [1, 2] :=
  ⟨fun _ => rfl,
    (((c2_query_outcomes (fun _ => true)
        (some [⟨1, "A"⟩, ⟨2, "B"⟩])).2 (fun _ => rfl)).1).trans (by rfl)⟩

/-- C3: registering K registrars (all allocations succeeding) against
one base type makes `plugins()` return exactly K references, the i-th
being the i-th registrar's instance; when the registrars own distinct
instances (distinct addresses), the returned references are pairwise
distinct. -/
theorem c3_k_registrations_k_references (rs : List Registrar)
    (h : (rs.map Registrar.call).Nodup) :
    RegistrarBase.plugins (runRegsOk none rs) = rs.map Registrar.call
    ∧ (RegistrarBase.plugins (runRegsOk none rs)).length = rs.length
    ∧ (RegistrarBase.plugins (runRegsOk none rs)).Nodup := by
  have he : RegistrarBase.plugins (runRegsOk none rs)
      = rs.map Registrar.call := by
    rw [plugins_eq_map, regEntries_runRegsOk]
    simp [regEntries]
  refine ⟨he, ?_, ?_⟩
  · rw [he]; simp
  · rw [he]; exact h

theorem c3_witness :
    (([(⟨1, "A"⟩ : Registrar), ⟨2, "B"⟩].map Registrar.call).Nodup)
    ∧ RegistrarBase.plugins
        (runRegsOk none [(⟨1, "A"⟩ : Registrar), ⟨2, "B"⟩]) = [1, 2] :=
  ⟨by decide,
    (c3_k_registrations_k_references [⟨1, "A"⟩, ⟨2, "B"⟩]
        (by decide)).1.trans (by decide)⟩

/-- C4: with no intervening registration, repeated calls of the query
return the same references: running `plugins()` again on the state the
first call left behind yields the same list, element by element. -/
theorem c4_identity_stable_across_queries (st : Option (List Registrar)) :
    (pluginsCall ((pluginsCall st).2)).1 = (pluginsCall st).1
    ∧ ∀ i : Nat, ((pluginsCall ((pluginsCall st).2)).1).get? i
        = ((pluginsCall st).1).get? i :=
  ⟨rfl, fun _ => rfl⟩

/-- C5: if no registration event ever targeted base type `b`, its
registry is still the null pointer and `plugins<b>()` returns the
empty sequence by a normal return, not a fault. -/
theorem c5_unregistered_family_empty (evs : List RegEvent) (b : Nat)
    (h : ∀ e ∈ evs, e.base ≠ b) :
    runEvents initState evs b = none
    ∧ plugins (runEvents initState evs b) = [] := by
  have h1 : runEvents initState evs b = initState b := runEvents_other evs initState b h
  exact ⟨h1, by rw [h1]; rfl⟩

theorem c5_witness :
    (∀ e ∈ [RegEvent.mk 0 ⟨1, "A"⟩ true true], e.base ≠ 1)
    ∧ plugins (runEvents initState [RegEvent.mk 0 ⟨1, "A"⟩ true true] 1) = [] :=
  ⟨by decide,
    (c5_unregistered_family_empty [RegEvent.mk 0 ⟨1, "A"⟩ true true] 1
      (by decide)).2⟩

/-- C6: the order of the returned sequence matches registration
order: each construction appends its entry at the end of the registry
and the query traverses front to back, so the i-th returned reference
is the i-th registrar constructed for that base type. -/
theorem c6_order_matches_registration (rs : List Registrar) (i : Nat)
    (h : i < rs.length) :
    (RegistrarBase.plugins (runRegsOk none rs))[i]?
      = some (Registrar.call (rs.get ⟨i, h⟩)) := by
  have he : RegistrarBase.plugins (runRegsOk none rs)
      = rs.map Registrar.call := by
    rw [plugins_eq_map, regEntries_runRegsOk]
    simp [regEntries]
  rw [he, List.getElem?_map, List.getElem?_eq_getElem h]
  rfl

theorem c6_witness :
    1 < [(⟨1, "A"⟩ : Registrar), ⟨2, "B"⟩].length
    ∧ (RegistrarBase.plugins
        (runRegsOk none [(⟨1, "A"⟩ : Registrar), ⟨2, "B"⟩]))[1]?
        = some 2 :=
  ⟨by decide,
    (c6_order_matches_registration [⟨1, "A"⟩, ⟨2, "B"⟩] 1
        (by decide)).trans (by decide)⟩

/-- C7: registries of distinct base types are disjoint: a
registration event for one base type leaves every other base type's
registry, and hence the result of its query, unchanged. -/
theorem c7_registries_disjoint (g : GState) (e : RegEvent) (b : Nat)
    (h : b ≠ e.base) :
    stepEvent g e b = g b
    ∧ plugins (stepEvent g e b) = plugins (g b) := by
  have h1 : stepEvent g e b = g b := by simp [stepEvent, h]
  exact ⟨h1, by rw [h1]⟩

theorem c7_witness :
    (1 : Nat) ≠ (RegEvent.mk 0 ⟨1, "A"⟩ true true).base
    ∧ stepEvent initState (RegEvent.mk 0 ⟨1, "A"⟩ true true) 1
        = initState 1 :=
  ⟨by decide,
    (c7_registries_disjoint initState (RegEvent.mk 0 ⟨1, "A"⟩ true true) 1
      (by decide)).1⟩

theorem registerPluginIdent_inj (x y : String)
    (h : registerPluginIdent x = registerPluginIdent y) : x = y := by
  have hd := congrArg String.data h
  simp only [registerPluginIdent, String.data_append] at hd
  exact String.ext (List.append_cancel_right hd)

theorem scoped_tys_nodup (uses : List MacroUse) (s : Nat)
    (h : (uses.map macroIdent).Nodup) :
    ((uses.filter (fun u => u.scope == s)).map MacroUse.ty).Nodup := by
  have hsub : List.Sublist
      ((uses.filter (fun u => u.scope == s)).map macroIdent)
      (uses.map macroIdent) := (List.filter_sublist uses).map macroIdent
  have hnd : ((uses.filter (fun u => u.scope == s)).map macroIdent).Nodup :=
    List.Nodup.sublist hsub h
  have hcong : (uses.filter (fun u => u.scope == s)).map macroIdent
      = ((uses.filter (fun u => u.scope == s)).map MacroUse.ty).map
          (fun t => (s, registerPluginIdent t)) := by
    rw [List.map_map]
    apply List.map_congr_left
    intro u hu
    have hs : u.scope = s := by simpa using List.of_mem_filter hu
    simp [macroIdent, Function.comp, hs]
  rw [hcong] at hnd
  exact List.Nodup.of_map _ hnd

/-- C8 (counterexample): the claim's conclusion fails across scopes:
`REGISTER_PLUGIN` declares an internal-linkage `static`, so the same
concrete type registered from two different scopes (or translation
units) is accepted by the compiler — the pasted identifiers do not
collide — yet both registrars append to the one shared registry of
the base type, which then holds two entries for the same concrete
plugin type at runtime. -/
theorem c8_counterexample :
    (([MacroUse.mk 0 "A", MacroUse.mk 1 "A"].map macroIdent).Nodup)
    ∧ ¬ ((regEntries (runRegsOk none
          ([MacroUse.mk 0 "A", MacroUse.mk 1 "A"].map
            (fun u => Registrar.mk u.scope u.ty)))).map
              Registrar.ty).Nodup := by
  refine ⟨by decide, ?_⟩
  rw [regEntries_runRegsOk]
  decide

/-- C8 (amended): `REGISTER_PLUGIN` declares one static registrar per
use, and its pasted identifier collides exactly when scope and
concrete type coincide, so a duplicate registration of one concrete
type in one scope is a compile-time redefinition error (the program
is only accepted when all declared identifiers are distinct);
consequently, in an accepted program, the registrations of any one
scope carry pairwise distinct concrete types, and the part of the
registry built from one scope's registrations holds at most one
entry per concrete plugin type. (Across distinct scopes or
translation units the same concrete type can be registered again,
so the at-most-one-entry invariant is per scope, not per registry.) -/
theorem c8_at_most_one_entry_per_type :
    (∀ u v : MacroUse,
      macroIdent u = macroIdent v ↔ (u.scope = v.scope ∧ u.ty = v.ty))
    ∧ (∀ (uses : List MacroUse) (s : Nat), (uses.map macroIdent).Nodup →
        ((uses.filter (fun u => u.scope == s)).map MacroUse.ty).Nodup)
    ∧ (∀ (uses : List MacroUse) (s : Nat) (f : MacroUse → Registrar),
        (∀ u ∈ uses, (f u).ty = u.ty) →
        (uses.map macroIdent).Nodup →
        ((regEntries (runRegsOk none
            ((uses.filter (fun u => u.scope == s)).map f))).map
              Registrar.ty).Nodup) := by
  refine ⟨?_, scoped_tys_nodup, ?_⟩
  · intro u v
    constructor
    · intro h
      have h1 := congrArg Prod.fst h
      have h2 := congrArg Prod.snd h
      simp only [macroIdent] at h1 h2
      exact ⟨h1, registerPluginIdent_inj _ _ h2⟩
    · rintro ⟨h1, h2⟩
      simp [macroIdent, h1, h2]
  · intro uses s f hf h
    rw [regEntries_runRegsOk]
    simp only [regEntries, Option.getD_none, List.nil_append, List.map_map]
    have hcong : (uses.filter (fun u => u.scope == s)).map (Registrar.ty ∘ f)
        = (uses.filter (fun u => u.scope == s)).map MacroUse.ty := by
      apply List.map_congr_left
      intro u hu
      exact hf u (List.mem_of_mem_filter hu)
    rw [hcong]
    exact scoped_tys_nodup uses s h

theorem c8_witness :
    (([MacroUse.mk 0 "A", MacroUse.mk 0 "B"].map macroIdent).Nodup)
    ∧ (([MacroUse.mk 0 "A", MacroUse.mk 0 "B"].filter
          (fun u => u.scope == 0)).map MacroUse.ty).Nodup :=
  ⟨by decide, c8_at_most_one_entry_per_type.2.1
      [MacroUse.mk 0 "A", MacroUse.mk 0 "B"] 0 (by decide)⟩

/-- C9: the query is read-only: the registry state (the
`registrars_` pointer and the entries behind it) after a call of
`plugins()` is exactly the state before it. -/
theorem c9_query_is_readonly (st : Option (List Registrar)) :
    (pluginsCall st).2 = st
    ∧ regEntries ((pluginsCall st).2) = regEntries st :=
  ⟨rfl, rfl⟩

/-- C10: every pointer returned by `plugins()` is non-null: each
element is the address of a registrar's `plugin_` member, and a valid
object's member has a nonzero address. -/
theorem c10_returned_pointers_nonnull (st : Option (List Registrar))
    (h : ∀ r ∈ regEntries st, r.addr ≠ 0) :
    ∀ p ∈ RegistrarBase.plugins st, p ≠ 0 := by
  intro p hp
  rw [plugins_eq_map] at hp
  rcases List.mem_map.mp hp with ⟨r, hr, hrp⟩
  rw [← hrp]
  exact h r hr

theorem c10_witness :
    (∀ r ∈ regEntries (some [(⟨1, "A"⟩ : Registrar), ⟨2, "B"⟩]), r.addr ≠ 0)
    ∧ ∀ p ∈ RegistrarBase.plugins
        (some [(⟨1, "A"⟩ : Registrar), ⟨2, "B"⟩]), p ≠ 0 :=
  ⟨by decide,
    c10_returned_pointers_nonnull
      (some [(⟨1, "A"⟩ : Registrar), ⟨2, "B"⟩]) (by decide)⟩

end linktimeplugin
